import Mathlib

/-!
Verification of the follow-and-notify polling loop of the stat-summoner
Discord bot (src/module/loop_module/loop_module.rs, src/module/loop_module/utils.rs,
src/module/followgames/utils.rs, src/riot_api.rs, src/utils.rs,
src/models/constants.rs, src/models/data.rs).

Modelling conventions:
* JSON values (serde_json::Value) are modelled by the inductive `Json`
  below; numbers are modelled as integers (the fields the loop reads are
  integer-valued), and square-bracket indexing on a non-object yields
  `Json.null`, as serde_json's immutable `Index` impl does.
* The external world is an explicit oracle: `RiotApi.matchIds` models
  `get_matchs_id` (the GET + JSON decode of the match-id list, which the
  Rust code propagates with `?` on failure) and `RiotApi.matchInfo`
  models `get_matchs_info`.  `Except.error e` is a failed call.
* The MongoDB collection `follower_summoner` is modelled as a
  `List SummonerFollowedData` in natural (insertion) order; `find_one`
  returns the first document matching the filter, `update_one` /
  `delete_one` affect the first matching document, `insert_one` appends.
* Rust `Result` propagation (`?`) and Rust panics (out-of-bounds
  indexing, `Option::unwrap` on `None`) are distinguished: a step of the
  loop finishes `ok`, `err` (an `Err` value bubbled up by `?`) or
  `panicked`.  Every outcome carries the store contents and the list of
  Discord notifications sent so far, since the Rust code mutates the
  store and sends messages before it can fail.
* The Discord send (`channel_id.send_message`) has its result discarded
  by the source (`let _ = ...`), so sending is modelled as always
  appending a `Notification`; a failure of the send is invisible to the
  caller in the source and hence has no error path in the model.
-/

namespace StatSummoner

/-- serde_json::Value, with numbers restricted to integers (all numeric
fields read by the loop are integers). -/
inductive Json where
  | null
  | bool (b : Bool)
  | num (n : Int)
  | str (s : String)
  | arr (elems : List Json)
  | obj (fields : List (String × Json))

/-- `value[key]` on an immutable serde_json value: field lookup on an
object (first binding wins), `null` on anything else. -/
def Json.index (j : Json) (key : String) : Json :=
  match j with
  | .obj fields => (((fields.find? (fun kv => kv.1 == key)).map Prod.snd).getD .null)
  | _ => .null

/-- `Value::as_i64`. -/
def Json.as_i64 : Json → Option Int
  | .num n => some n
  | _ => none

/-- `Value::as_u64` (integers only; negative numbers are not u64). -/
def Json.as_u64 : Json → Option Nat
  | .num n => if 0 ≤ n then some n.toNat else none
  | _ => none

/-- `Value::as_str`. -/
def Json.as_str : Json → Option String
  | .str s => some s
  | _ => none

/-- `Value::as_bool`. -/
def Json.as_bool : Json → Option Bool
  | .bool b => some b
  | _ => none

/-- `Value::as_array`. -/
def Json.as_array : Json → Option (List Json)
  | .arr elems => some elems
  | _ => none

/-- src/models/data.rs: one document of the `follower_summoner`
collection. -/
structure SummonerFollowedData where
  puuid : String
  summoner_id : String
  name : String
  tag : String
  region : String
  last_match_id : String
  time_end_follow : String
  channel_id : Nat
  guild_id : String
deriving DecidableEq, Repr

/-- Rust `str::parse::<i64>`: optional sign, one or more decimal digits,
value within the i64 range. -/
def parse_i64 (s : String) : Option Int :=
  let split : Int × List Char :=
    match s.data with
    | '+' :: rest => (1, rest)
    | '-' :: rest => (-1, rest)
    | l => (1, l)
  if split.2.isEmpty then none
  else if split.2.all (fun c => c.isDigit) then
    let mag : Int := Int.ofNat (split.2.foldl (fun acc c => acc * 10 + (c.toNat - 48)) 0)
    let v := split.1 * mag
    if -(2 ^ 63) ≤ v ∧ v < 2 ^ 63 then some v else none
  else none

/-- src/utils.rs `seconds_to_time`: minutes and zero-padded seconds. -/
def seconds_to_time (seconds : Nat) : String × String :=
  let game_duration_minutes := seconds / 60
  let game_duration_seconds := seconds % 60
  let game_duration_seconds_str :=
    if game_duration_seconds < 10 then "0" ++ toString game_duration_seconds
    else toString game_duration_seconds
  (toString game_duration_minutes, game_duration_seconds_str)

/-- src/models/constants.rs `QUEUE_ID_MAP`. -/
def QUEUE_ID_MAP : List (Int × String) :=
  [(400, "Normal Draft"),
   (420, "Ranked Solo/Duo"),
   (430, "Normal Blind"),
   (440, "Ranked Flex"),
   (450, "ARAM"),
   (700, "Clash"),
   (830, "Co-op vs AI Intro"),
   (840, "Co-op vs AI Beginner"),
   (850, "Co-op vs AI Intermediate"),
   (900, "URF")]

/-- src/utils.rs `get_game_mode`: first matching queue id, else
"Unknown". -/
def get_game_mode (queue_id : Int) : String :=
  ((QUEUE_ID_MAP.find? (fun x => x.1 == queue_id)).map Prod.snd).getD "Unknown"

/-- src/module/loop_module/utils.rs `extract_participant_stats`. -/
def extract_participant_stats (p : Json) : Json :=
  let riot_id_game_name := (p.index "riotIdGameName").as_str.getD "Unknown"
  let summoner_name :=
    if ((p.index "summonerName").as_str.getD "Unknown") == "" then riot_id_game_name
    else (p.index "summonerName").as_str.getD "Unknown"
  let champion_name := (p.index "championName").as_str.getD "Unknown"
  let kills := (p.index "kills").as_u64.getD 0
  let deaths := (p.index "deaths").as_u64.getD 0
  let assists := (p.index "assists").as_u64.getD 0
  let total_minions_killed := (p.index "totalMinionsKilled").as_u64.getD 0
  let neutral_minions_killed := (p.index "neutralMinionsKilled").as_u64.getD 0
  let total_farm := total_minions_killed + neutral_minions_killed
  let gold_earned := (p.index "goldEarned").as_u64.getD 0
  let vision_score := (p.index "visionScore").as_u64.getD 0
  Json.obj
    [("summonerName", .str summoner_name),
     ("championName", .str champion_name),
     ("kills", .num kills),
     ("deaths", .num deaths),
     ("assists", .num assists),
     ("totalFarm", .num total_farm),
     ("goldEarned", .num gold_earned),
     ("visionScore", .num vision_score)]

/-- src/module/loop_module/utils.rs `get_match_details`.  Returns `none`
exactly where the Rust function returns `None`: when
`match_info["info"]["participants"]` is not an array (the two `?`
operators), or when no participant's `summonerId` equals
`summoner_id`.  The two `HashMap<String, &Value>`s of positions are
modelled as functions `String → Option Json` updated left to right over
the participants (`HashMap::insert` overwrites, so the last participant
with a given position wins, as in the source). -/
def get_match_details (match_info : Json) (summoner_id : String) : Option Json :=
  let queue_id := ((match_info.index "info").index "queueId").as_i64.getD (-1)
  let td := seconds_to_time (((match_info.index "info").index "gameDuration").as_u64.getD 0)
  let game_duration_string := td.1 ++ ":" ++ td.2
  let game_mode := get_game_mode queue_id
  match ((match_info.index "info").index "participants").as_array with
  | none => none
  | some participants =>
    match participants.find? (fun p => ((p.index "summonerId").as_str.getD "") == summoner_id) with
    | none => none
    | some participant =>
      let team_id := (participant.index "teamId").as_i64.getD 0
      let win := (participant.index "win").as_bool.getD false
      let game_result := if win then "Victory" else "Defeat"
      let maps := participants.foldl
        (fun (acc : (String → Option Json) × (String → Option Json)) p =>
          let position := (p.index "teamPosition").as_str.getD "UNKNOWN"
          let p_team_id := (p.index "teamId").as_i64.getD 0
          if p_team_id == team_id then
            (fun k => if k == position then some p else acc.1 k, acc.2)
          else
            (acc.1, fun k => if k == position then some p else acc.2 k))
        (fun _ => none, fun _ => none)
      let roles := ["TOP", "JUNGLE", "MIDDLE", "BOTTOM", "UTILITY"]
      let matchups := roles.filterMap (fun role =>
        match maps.1 role, maps.2 role with
        | some team_p, some enemy_p =>
          some (Json.obj
            [("role", .str role),
             ("team", extract_participant_stats team_p),
             ("enemy", extract_participant_stats enemy_p)])
        | _, _ => none)
      some (Json.obj
        [("gameMode", .str game_mode),
         ("gameResult", .str game_result),
         ("gameDuration", .str game_duration_string),
         ("matchups", .arr matchups)])

/-- The Match Data Source oracle of one tick.  `matchIds puuid nb`
models `get_matchs_id` in src/riot_api.rs (HTTP GET of the
`nb` most recent match ids, decoded as `Vec<String>`); `matchInfo mid`
models `get_matchs_info` (HTTP GET of the full match detail, decoded as
a JSON value).  `Except.error` is a failed call (network error or
decode failure), which the Rust wrappers surface as `Err` via `?`. -/
structure RiotApi where
  matchIds : String → Nat → Except String (List String)
  matchInfo : String → Except String Json

/-- One Discord message sent by `send_match_update_to_discord`: the
target channel, the followed player's stored display name (used in the
embed title), the match id whose detail was fetched, and the payload
produced by `get_match_details` from that detail (the embed is built
from exactly this value and the name). -/
structure Notification where
  channel_id : Nat
  player_name : String
  match_id : String
  payload : Json

/-- Outcome of one Rust call that has no store side effects:
`Ok`, `Err` (propagated by `?`), or a panic. -/
inductive CallOutcome (α : Type) where
  | ok (a : α)
  | err (e : String)
  | panicked

/-- Outcome of one store-mutating step of the loop.  Every constructor
carries the collection contents and the notifications sent up to the
point the step finished, erred, or panicked. -/
inductive StepResult where
  | ok (store : List SummonerFollowedData) (sent : List Notification)
  | err (store : List SummonerFollowedData) (sent : List Notification) (e : String)
  | panicked (store : List SummonerFollowedData) (sent : List Notification)

/-- The collection contents an outcome carries. -/
def StepResult.store : StepResult → List SummonerFollowedData
  | .ok s _ => s
  | .err s _ _ => s
  | .panicked s _ => s

/-- `collection.update_one(doc!{puuid, guild_id}, doc!{$set: {last_match_id}})`:
set `last_match_id` on the first document matching the filter. -/
def update_one_last_match_id :
    List SummonerFollowedData → String → String → String → List SummonerFollowedData
  | [], _, _, _ => []
  | r :: rest, puuid, guild_id, mid =>
    if r.puuid = puuid ∧ r.guild_id = guild_id then
      { r with last_match_id := mid } :: rest
    else
      r :: update_one_last_match_id rest puuid guild_id mid

/-- `collection.delete_one(doc!{puuid, guild_id})`: remove the first
document matching the filter. -/
def delete_one_follower :
    List SummonerFollowedData → String → String → List SummonerFollowedData
  | [], _, _ => []
  | r :: rest, puuid, guild_id =>
    if r.puuid = puuid ∧ r.guild_id = guild_id then rest
    else r :: delete_one_follower rest puuid guild_id

/-- src/module/loop_module/loop_module.rs `is_follow_time_expired`:
parse `time_end_follow` as i64 (0 on parse failure) and compare the
current UTC timestamp (`now`, passed explicitly) strictly against it. -/
def is_follow_time_expired (now : Int) (followed_summoner : SummonerFollowedData) : Bool :=
  let time_end_follow := (parse_i64 followed_summoner.time_end_follow).getD 0
  decide (now > time_end_follow)

/-- src/module/loop_module/loop_module.rs `delete_follower`. -/
def delete_follower (collection : List SummonerFollowedData)
    (followed_summoner : SummonerFollowedData) : List SummonerFollowedData :=
  delete_one_follower collection followed_summoner.puuid followed_summoner.guild_id

/-- src/module/loop_module/loop_module.rs `get_latest_match_id`:
fetch one match id and return `matches[0]`.  Indexing an empty
`Vec<String>` with `[0]` is a Rust panic, not an `Err`. -/
def get_latest_match_id (api : RiotApi) (puuid : String) : CallOutcome String :=
  match api.matchIds puuid 1 with
  | .error e => .err e
  | .ok matchs =>
    match matchs with
    | [] => .panicked
    | m :: _ => .ok m

/-- src/module/loop_module/loop_module.rs `send_match_update_to_discord`:
fetch the match detail (`?` on failure), `get_match_details(..).unwrap()`
(a panic when it is `None`), build the embed from the detail and the
record's stored name, and send it to the record's channel, discarding
the send result. -/
def send_match_update_to_discord (api : RiotApi)
    (followed_summoner : SummonerFollowedData) (summoner_id match_id : String) :
    CallOutcome Notification :=
  match api.matchInfo match_id with
  | .error e => .err e
  | .ok info =>
    match get_match_details info summoner_id with
    | none => .panicked
    | some info_json =>
      .ok ⟨followed_summoner.channel_id, followed_summoner.name, match_id, info_json⟩

/-- src/module/loop_module/loop_module.rs `update_follower_if_new_match`:
fetch the latest match id; if it differs from the stored
`last_match_id`, first `update_one` the stored id, then fetch the
detail and send the Discord message.  Note the store update precedes
the detail fetch and the send in the source. -/
def update_follower_if_new_match (api : RiotApi)
    (collection : List SummonerFollowedData)
    (followed_summoner : SummonerFollowedData) : StepResult :=
  match get_latest_match_id api followed_summoner.puuid with
  | .err e => .err collection [] e
  | .panicked => .panicked collection []
  | .ok match_id_from_riot =>
    if followed_summoner.last_match_id ≠ match_id_from_riot then
      let collection' := update_one_last_match_id collection
        followed_summoner.puuid followed_summoner.guild_id match_id_from_riot
      match send_match_update_to_discord api followed_summoner
        followed_summoner.summoner_id match_id_from_riot with
      | .err e => .err collection' [] e
      | .panicked => .panicked collection' []
      | .ok n => .ok collection' [n]
    else
      .ok collection []

/-- src/module/loop_module/loop_module.rs `process_followed_summoner`. -/
def process_followed_summoner (api : RiotApi) (now : Int)
    (collection : List SummonerFollowedData)
    (followed_summoner : SummonerFollowedData) : StepResult :=
  if is_follow_time_expired now followed_summoner then
    .ok (delete_follower collection followed_summoner) []
  else
    update_follower_if_new_match api collection followed_summoner

/-- src/module/loop_module/loop_module.rs `get_followed_summoners`: the
cursor yields per-document deserialization results; `Ok` documents are
pushed, `Err` documents are logged and skipped, and the function itself
always returns `Ok` of the collected vector. -/
def get_followed_summoners
    (cursor : List (Except String SummonerFollowedData)) : List SummonerFollowedData :=
  cursor.foldl
    (fun followed_summoners result =>
      match result with
      | .ok followed_summoner => followed_summoners ++ [followed_summoner]
      | .error _ => followed_summoners)
    []

/-- The `for followed_summoner in followed_summoners` loop inside
`check_and_update_db`: process each snapshot record in order against
the evolving collection, with `?` aborting the loop on the first `Err`
(and a panic aborting it likewise). -/
def run_pass (api : RiotApi) (now : Int) :
    List SummonerFollowedData → List SummonerFollowedData → StepResult
  | [], collection => .ok collection []
  | followed_summoner :: rest, collection =>
    match process_followed_summoner api now collection followed_summoner with
    | .ok collection' ns =>
      match run_pass api now rest collection' with
      | .ok collection'' ns' => .ok collection'' (ns ++ ns')
      | .err collection'' ns' e => .err collection'' (ns ++ ns') e
      | .panicked collection'' ns' => .panicked collection'' (ns ++ ns')
    | .err collection' ns e => .err collection' ns e
    | .panicked collection' ns => .panicked collection' ns

/-- src/module/loop_module/loop_module.rs `check_and_update_db`: count
the documents (`estimated_document_count`), and when the collection is
non-empty, snapshot it via `get_followed_summoners` and run the
per-record loop over the snapshot. -/
def check_and_update_db (api : RiotApi) (now : Int)
    (collection : List SummonerFollowedData) : StepResult :=
  let count := collection.length
  if count > 0 then
    let followed_summoners := get_followed_summoners (collection.map Except.ok)
    run_pass api now followed_summoners collection
  else
    .ok collection []

/-- One `/followgames` request, as the data `check_and_add_in_db`
receives: the modal fields, the resolved identifiers, and the Discord
context (`ctx.guild_id()` stringified, `ctx.channel_id()`). -/
structure FollowRequest where
  puuid : String
  summoner_id : String
  game_name : String
  tag_line : String
  region_str : String
  match_id : String
  time_end_follow : String
  channel_id : Nat
  guild_id : String

/-- The `SummonerFollowedData` literal built in both insert branches of
`check_and_add_in_db`. -/
def new_followed_summoner (req : FollowRequest) : SummonerFollowedData :=
  { puuid := req.puuid
    summoner_id := req.summoner_id
    name := req.game_name
    tag := req.tag_line
    region := req.region_str
    last_match_id := req.match_id
    time_end_follow := req.time_end_follow
    channel_id := req.channel_id
    guild_id := req.guild_id }

/-- `collection.update_one(doc!{puuid, guild_id}, doc!{$set: {time_end_follow}})`:
set `time_end_follow` on the first document matching the filter. -/
def update_one_time_end_follow :
    List SummonerFollowedData → String → String → String → List SummonerFollowedData
  | [], _, _, _ => []
  | r :: rest, puuid, guild_id, t =>
    if r.puuid = puuid ∧ r.guild_id = guild_id then
      { r with time_end_follow := t } :: rest
    else
      r :: update_one_time_end_follow rest puuid guild_id t

/-- src/module/followgames/utils.rs `check_and_add_in_db`:
`find_one(doc!{puuid})` — the filter is by `puuid` alone — returns the
first document with that puuid; if its `guild_id` equals the request's
guild, `update_one` refreshes `time_end_follow`; otherwise (different
guild, or no document at all) a fresh document is inserted.  The
Discord success/error embeds are side effects not modelled here, and
the store operations themselves are modelled as succeeding. -/
def check_and_add_in_db (collection : List SummonerFollowedData)
    (req : FollowRequest) : List SummonerFollowedData :=
  match collection.find? (fun r => r.puuid == req.puuid) with
  | some followed =>
    if followed.guild_id = req.guild_id then
      update_one_time_end_follow collection req.puuid req.guild_id req.time_end_follow
    else
      collection ++ [new_followed_summoner req]
  | none => collection ++ [new_followed_summoner req]

/-! Helper lemmas shared by the claim theorems. -/

/-- Unrolling the accumulator of `get_followed_summoners`. -/
theorem get_followed_summoners_go (docs : List (Except String SummonerFollowedData))
    (acc : List SummonerFollowedData) :
    docs.foldl
      (fun followed_summoners result =>
        match result with
        | .ok followed_summoner => followed_summoners ++ [followed_summoner]
        | .error _ => followed_summoners)
      acc
    = acc ++ docs.filterMap (fun result =>
        match result with
        | .ok followed_summoner => some followed_summoner
        | .error _ => none) := by
  induction docs generalizing acc with
  | nil => simp
  | cons d t ih =>
    cases d with
    | ok fs => simp [ih]
    | error e => simp [ih]

/-- Enumerating a cursor in which every document deserializes returns
exactly those documents. -/
theorem get_followed_summoners_map_ok (l : List SummonerFollowedData) :
    get_followed_summoners (l.map Except.ok) = l := by
  unfold get_followed_summoners
  rw [get_followed_summoners_go, List.nil_append]
  induction l with
  | nil => rfl
  | cons a t ih =>
    rw [List.map_cons, List.filterMap_cons]
    exact congrArg (a :: ·) ih

/-- `update_one` on a store whose first (puuid, guild_id) match is `fs`
rewrites exactly that document's `last_match_id`. -/
theorem update_one_last_match_id_first (pre post : List SummonerFollowedData)
    (fs : SummonerFollowedData) (mid : String)
    (hpre : ∀ r ∈ pre, ¬(r.puuid = fs.puuid ∧ r.guild_id = fs.guild_id)) :
    update_one_last_match_id (pre ++ fs :: post) fs.puuid fs.guild_id mid =
      pre ++ { fs with last_match_id := mid } :: post := by
  induction pre with
  | nil => simp [update_one_last_match_id]
  | cons a t ih =>
    simp only [List.cons_append, update_one_last_match_id, List.append_eq]
    rw [if_neg (hpre a (by simp))]
    rw [ih (fun r hr => hpre r (by simp [hr]))]

/-- If the loop of a pass processes a prefix successfully and then the
next record's processing returns `Err`, the whole pass returns that
`Err`: the prefix's effects stand, and the remaining records are never
processed. -/
theorem run_pass_ok_then_err (api : RiotApi) (now : Int) :
    ∀ (l₁ : List SummonerFollowedData) (store σ σ' : List SummonerFollowedData)
      (ns ns' : List Notification) (fs : SummonerFollowedData)
      (l₂ : List SummonerFollowedData) (e : String),
    run_pass api now l₁ store = .ok σ ns →
    process_followed_summoner api now σ fs = .err σ' ns' e →
    run_pass api now (l₁ ++ fs :: l₂) store = .err σ' (ns ++ ns') e := by
  intro l₁
  induction l₁ with
  | nil =>
    intro store σ σ' ns ns' fs l₂ e h₁ h₂
    simp only [run_pass, StepResult.ok.injEq] at h₁
    obtain ⟨rfl, rfl⟩ := h₁
    simp [run_pass, h₂]
  | cons a t ih =>
    intro store σ σ' ns ns' fs l₂ e h₁ h₂
    rw [List.cons_append]
    simp only [run_pass] at h₁ ⊢
    cases hp : process_followed_summoner api now store a with
    | ok c' ns0 =>
      simp only [hp] at h₁ ⊢
      cases hr : run_pass api now t c' with
      | ok c'' ns1 =>
        simp only [hr, StepResult.ok.injEq] at h₁
        obtain ⟨rfl, rfl⟩ := h₁
        rw [ih c' c'' σ' ns1 ns' fs l₂ e hr h₂]
        simp [List.append_assoc]
      | err c'' ns1 e' =>
        simp only [hr] at h₁
        exact StepResult.noConfusion h₁
      | panicked c'' ns1 =>
        simp only [hr] at h₁
        exact StepResult.noConfusion h₁
    | err c' ns0 e' =>
      simp only [hp] at h₁
      exact StepResult.noConfusion h₁
    | panicked c' ns0 =>
      simp only [hp] at h₁
      exact StepResult.noConfusion h₁

/-! Claim theorems. -/

/-- C3: Monotonicity of the stored match id.  One processing step of a
record either leaves the store untouched, or deletes the expired
record, or — the only write to `last_match_id` the loop ever performs —
overwrites the record's `last_match_id` with precisely the id the Match
Data Source currently reports as the player's most recent match (the
head of its reported list), and only when that id differs from the
stored value.  The loop never writes any other value, so the stored id
never moves behind what the source reports as most recent. -/
theorem C3_last_match_id_monotonic (api : RiotApi) (now : Int)
    (store : List SummonerFollowedData) (fs : SummonerFollowedData) :
    (process_followed_summoner api now store fs).store = store
    ∨ (process_followed_summoner api now store fs).store = delete_follower store fs
    ∨ ∃ B rest, api.matchIds fs.puuid 1 = .ok (B :: rest)
        ∧ fs.last_match_id ≠ B
        ∧ (process_followed_summoner api now store fs).store =
            update_one_last_match_id store fs.puuid fs.guild_id B := by
  cases hexp : is_follow_time_expired now fs with
  | true =>
    right; left
    simp [process_followed_summoner, hexp, StepResult.store]
  | false =>
    simp only [process_followed_summoner, hexp, Bool.false_eq_true, if_false]
    cases hm : api.matchIds fs.puuid 1 with
    | error e =>
      left
      simp [update_follower_if_new_match, get_latest_match_id, hm, StepResult.store]
    | ok ms =>
      cases ms with
      | nil =>
        left
        simp [update_follower_if_new_match, get_latest_match_id, hm, StepResult.store]
      | cons B rest =>
        by_cases hB : fs.last_match_id = B
        · left
          simp [update_follower_if_new_match, get_latest_match_id, hm, hB, StepResult.store]
        · right; right
          refine ⟨B, rest, rfl, hB, ?_⟩
          simp only [update_follower_if_new_match, get_latest_match_id, hm]
          rw [if_pos hB]
          cases hs : send_match_update_to_discord api fs fs.summoner_id B <;>
            simp [hs, StepResult.store]

/-- C5: Update-and-notify on change.  For a non-expired record whose
stored id is not the id `B` the Match Data Source reports as latest,
when the detail fetch succeeds and the detail contains the followed
summoner, one processing step updates the record's stored
`last_match_id` to `B` (the first store document matching the record's
puuid and guild) and sends exactly one notification, to the record's
channel, whose payload is built from `B`'s fetched detail. -/
theorem C5_update_and_notify
    (api : RiotApi) (now : Int) (pre post : List SummonerFollowedData)
    (fs : SummonerFollowedData) (B : String) (rest : List String)
    (info payload : Json)
    (hexp : is_follow_time_expired now fs = false)
    (hids : api.matchIds fs.puuid 1 = .ok (B :: rest))
    (hnew : fs.last_match_id ≠ B)
    (hinfo : api.matchInfo B = .ok info)
    (hdet : get_match_details info fs.summoner_id = some payload)
    (hpre : ∀ r ∈ pre, ¬(r.puuid = fs.puuid ∧ r.guild_id = fs.guild_id)) :
    process_followed_summoner api now (pre ++ fs :: post) fs =
      .ok (pre ++ { fs with last_match_id := B } :: post)
        [⟨fs.channel_id, fs.name, B, payload⟩] := by
  simp only [process_followed_summoner, hexp, Bool.false_eq_true, if_false]
  simp only [update_follower_if_new_match, get_latest_match_id, hids]
  rw [if_pos hnew]
  simp only [send_match_update_to_discord, hinfo, hdet]
  rw [update_one_last_match_id_first pre post fs B hpre]

/-- C5 witness: a concrete non-expired record stored as `"A"`, the
source reporting `"B"`, a detail containing the summoner; the step
rewrites the stored id to `"B"` and sends one notification carrying the
payload extracted from `"B"`'s detail. -/
theorem C5_update_and_notify_witness :
    process_followed_summoner
      ⟨fun _ _ => .ok ["B"],
       fun _ => .ok (Json.obj
         [("info", Json.obj
           [("queueId", Json.num 420),
            ("gameDuration", Json.num 125),
            ("participants", Json.arr
              [Json.obj
                [("summonerId", Json.str "s"),
                 ("teamId", Json.num 100),
                 ("win", Json.bool true)]])])])⟩
      100
      [⟨"p", "s", "n", "t", "euw", "A", "9999999999", 3, "g"⟩]
      ⟨"p", "s", "n", "t", "euw", "A", "9999999999", 3, "g"⟩ =
      .ok [⟨"p", "s", "n", "t", "euw", "B", "9999999999", 3, "g"⟩]
        [⟨3, "n", "B", Json.obj
          [("gameMode", Json.str "Ranked Solo/Duo"),
           ("gameResult", Json.str "Victory"),
           ("gameDuration", Json.str "2:05"),
           ("matchups", Json.arr [])]⟩] :=
  C5_update_and_notify _ 100 [] []
    ⟨"p", "s", "n", "t", "euw", "A", "9999999999", 3, "g"⟩ "B" [] _ _
    rfl rfl (by decide) rfl rfl (by simp)

/-- C6: No-op on unchanged match.  For a non-expired record whose stored
`last_match_id` is exactly the id the Match Data Source reports as
latest — the comparison in the source is plain string inequality
`last_match_id != match_id_from_riot`, nothing semantic — one
processing step leaves the store unmodified and sends no
notification. -/
theorem C6_noop_on_unchanged
    (api : RiotApi) (now : Int) (store : List SummonerFollowedData)
    (fs : SummonerFollowedData) (rest : List String)
    (hexp : is_follow_time_expired now fs = false)
    (hids : api.matchIds fs.puuid 1 = .ok (fs.last_match_id :: rest)) :
    process_followed_summoner api now store fs = .ok store [] := by
  simp only [process_followed_summoner, hexp, Bool.false_eq_true, if_false]
  simp only [update_follower_if_new_match, get_latest_match_id, hids]
  simp

/-- C6 witness: concrete record stored as `"A"`, source reporting
`"A"`; the step is a no-op. -/
theorem C6_noop_on_unchanged_witness :
    process_followed_summoner ⟨fun _ _ => .ok ["A"], fun _ => .error "x"⟩ 100
      [⟨"p", "s", "n", "t", "euw", "A", "9999999999", 3, "g"⟩]
      ⟨"p", "s", "n", "t", "euw", "A", "9999999999", 3, "g"⟩ =
      .ok [⟨"p", "s", "n", "t", "euw", "A", "9999999999", 3, "g"⟩] [] :=
  C6_noop_on_unchanged _ 100 _ _ [] rfl rfl

/-- C7: Expiry determinism.  Expiry is decided by the strict comparison
`now > time_end_follow` (the stored string parsed as i64, 0 on parse
failure); when the parsed expiry lies strictly below `now`, one
processing step deletes the record (the first store document matching
its puuid and guild) and sends no notification; the conclusion holds
for every Match Data Source oracle and mentions none of its calls, so
no match-id check happens for an expired record. -/
theorem C7_expiry_deterministic (api : RiotApi) (now : Int)
    (store : List SummonerFollowedData) (fs : SummonerFollowedData) :
    (is_follow_time_expired now fs = true ↔ (parse_i64 fs.time_end_follow).getD 0 < now)
    ∧ ((parse_i64 fs.time_end_follow).getD 0 < now →
        process_followed_summoner api now store fs = .ok (delete_follower store fs) []) := by
  constructor
  · simp [is_follow_time_expired]
  · intro h
    have hexp : is_follow_time_expired now fs = true := by
      simp [is_follow_time_expired, h]
    simp [process_followed_summoner, hexp]

/-- C7 witness: a record whose `time_end_follow` is `"0"` is expired at
time 100 and gets deleted without any notification. -/
theorem C7_expiry_deterministic_witness :
    process_followed_summoner ⟨fun _ _ => .ok ["z"], fun _ => .error "x"⟩ 100
      [⟨"p", "s", "n", "t", "euw", "A", "0", 2, "g"⟩]
      ⟨"p", "s", "n", "t", "euw", "A", "0", 2, "g"⟩ =
      .ok (delete_follower [⟨"p", "s", "n", "t", "euw", "A", "0", 2, "g"⟩]
        ⟨"p", "s", "n", "t", "euw", "A", "0", 2, "g"⟩) [] :=
  (C7_expiry_deterministic _ 100 _ _).2 (by decide)

/-- C8: Enumeration robustness.  `get_followed_summoners` returns
exactly the documents that deserialize (`Ok` cursor items), in order;
a document that fails to deserialize is skipped and does not abort
enumeration of the remaining documents — dropping such a document from
the cursor does not change the result — and the function itself always
returns (it has no failure path for a bad document). -/
theorem C8_enumeration_robust (docs : List (Except String SummonerFollowedData)) :
    get_followed_summoners docs =
      docs.filterMap (fun result =>
        match result with
        | .ok followed_summoner => some followed_summoner
        | .error _ => none)
    ∧ ∀ (l₁ : List (Except String SummonerFollowedData)) (e : String)
        (l₂ : List (Except String SummonerFollowedData)),
        get_followed_summoners (l₁ ++ .error e :: l₂) = get_followed_summoners (l₁ ++ l₂) := by
  constructor
  · unfold get_followed_summoners
    rw [get_followed_summoners_go, List.nil_append]
  · intro l₁ e l₂
    unfold get_followed_summoners
    rw [get_followed_summoners_go, get_followed_summoners_go, List.nil_append,
      List.nil_append, List.filterMap_append, List.filterMap_append, List.filterMap_cons]

/-- C9: Empty match history panics.  When the Match Data Source returns
an empty match-id list for a non-expired record's player,
`get_latest_match_id` hits `matches[0]` on an empty vector — a Rust
panic, not an `Err` — and the record's processing aborts by panic
(state untouched, no notification) instead of by the per-record error
path. -/
theorem C9_empty_history_panics
    (api : RiotApi) (now : Int) (store : List SummonerFollowedData)
    (fs : SummonerFollowedData)
    (hexp : is_follow_time_expired now fs = false)
    (hids : api.matchIds fs.puuid 1 = .ok []) :
    get_latest_match_id api fs.puuid = .panicked
    ∧ process_followed_summoner api now store fs = .panicked store [] := by
  have hlat : get_latest_match_id api fs.puuid = .panicked := by
    simp [get_latest_match_id, hids]
  refine ⟨hlat, ?_⟩
  simp only [process_followed_summoner, hexp, Bool.false_eq_true, if_false]
  simp [update_follower_if_new_match, hlat]

/-- C9 witness: a concrete player with an empty match history makes the
processing step panic. -/
theorem C9_empty_history_panics_witness :
    get_latest_match_id ⟨fun _ _ => .ok [], fun _ => .error "x"⟩ "p" = .panicked
    ∧ process_followed_summoner ⟨fun _ _ => .ok [], fun _ => .error "x"⟩ 100
        [⟨"p", "s", "n", "t", "euw", "A", "9999999999", 3, "g"⟩]
        ⟨"p", "s", "n", "t", "euw", "A", "9999999999", 3, "g"⟩ =
      .panicked [⟨"p", "s", "n", "t", "euw", "A", "9999999999", 3, "g"⟩] [] :=
  C9_empty_history_panics ⟨fun _ _ => .ok [], fun _ => .error "x"⟩ 100
    [⟨"p", "s", "n", "t", "euw", "A", "9999999999", 3, "g"⟩]
    ⟨"p", "s", "n", "t", "euw", "A", "9999999999", 3, "g"⟩ rfl rfl

/-- C10: Missing participant panics after the store update.  When the
fetched detail of the new match `B` has no participants array, or none
of its participants has the record's `summoner_id`,
`get_match_details` returns `None`; `send_match_update_to_discord`
unwraps it and panics — and the panic happens after `update_one`
already overwrote the record's `last_match_id` with `B`, as the
carried store of the panicked outcome shows. -/
theorem C10_missing_participant_panics_after_update
    (api : RiotApi) (now : Int) (store : List SummonerFollowedData)
    (fs : SummonerFollowedData) (B : String) (rest : List String) (info : Json)
    (hexp : is_follow_time_expired now fs = false)
    (hids : api.matchIds fs.puuid 1 = .ok (B :: rest))
    (hnew : fs.last_match_id ≠ B)
    (hinfo : api.matchInfo B = .ok info)
    (hpart : ((info.index "info").index "participants").as_array = none
      ∨ ∃ ps, ((info.index "info").index "participants").as_array = some ps
          ∧ ∀ p ∈ ps, ((p.index "summonerId").as_str.getD "") ≠ fs.summoner_id) :
    get_match_details info fs.summoner_id = none
    ∧ process_followed_summoner api now store fs =
        .panicked (update_one_last_match_id store fs.puuid fs.guild_id B) [] := by
  have hdet : get_match_details info fs.summoner_id = none := by
    rcases hpart with h | ⟨ps, hps, hall⟩
    · simp [get_match_details, h]
    · simp only [get_match_details, hps]
      have hfind : ps.find?
          (fun p => ((p.index "summonerId").as_str.getD "") == fs.summoner_id) = none :=
        List.find?_eq_none.mpr (fun p hp => by simpa using hall p hp)
      rw [hfind]
  refine ⟨hdet, ?_⟩
  simp only [process_followed_summoner, hexp, Bool.false_eq_true, if_false]
  simp only [update_follower_if_new_match, get_latest_match_id, hids]
  rw [if_pos hnew]
  simp only [send_match_update_to_discord, hinfo, hdet]

/-- C10 witness: a fetched detail with an empty participants array makes
the step panic with the store already updated from `"A"` to `"B"`. -/
theorem C10_missing_participant_witness :
    get_match_details (Json.obj [("info", Json.obj [("participants", Json.arr [])])]) "s" = none
    ∧ process_followed_summoner
        ⟨fun _ _ => .ok ["B"],
         fun _ => .ok (Json.obj [("info", Json.obj [("participants", Json.arr [])])])⟩
        100
        [⟨"p", "s", "n", "t", "euw", "A", "9999999999", 3, "g"⟩]
        ⟨"p", "s", "n", "t", "euw", "A", "9999999999", 3, "g"⟩ =
      .panicked [⟨"p", "s", "n", "t", "euw", "B", "9999999999", 3, "g"⟩] [] :=
  C10_missing_participant_panics_after_update _ 100 _
    ⟨"p", "s", "n", "t", "euw", "A", "9999999999", 3, "g"⟩ "B" [] _
    rfl rfl (by decide) rfl (Or.inr ⟨[], rfl, by simp⟩)

/-- C1 counterexample: per-record failure isolation fails.  Two stored
records: record 1 is still followed and its Match Data Source call
fails; record 2 is expired, so a pass that processed it would delete
it.  `check_and_update_db` returns the error from record 1 with the
store unchanged — record 2 is still present and no notification was
sent — so the other record of the batch was NOT processed in that pass
and the error escalated out of the whole pass. -/
theorem C1_counterexample :
    check_and_update_db
      ⟨fun p _ => if p = "p1" then .error "boom" else .ok ["mX"], fun _ => .error "unused"⟩
      100
      [⟨"p1", "s1", "n1", "t1", "euw", "m1", "9999999999", 1, "g1"⟩,
       ⟨"p2", "s2", "n2", "t2", "euw", "m2", "0", 2, "g2"⟩] =
      .err
        [⟨"p1", "s1", "n1", "t1", "euw", "m1", "9999999999", 1, "g1"⟩,
         ⟨"p2", "s2", "n2", "t2", "euw", "m2", "0", 2, "g2"⟩] [] "boom"
    ∧ is_follow_time_expired 100 ⟨"p2", "s2", "n2", "t2", "euw", "m2", "0", 2, "g2"⟩ = true :=
  ⟨rfl, rfl⟩

/-- C1 (amended): the pass aborts at the failing record.  If the loop
processes a prefix of the snapshot successfully and the Match Data
Source call of the next record fails, `check_and_update_db` returns
that error: the prefix's processing effects stand, the failing record's
own state is unchanged apart from effects already applied, and every
later record of the batch goes unprocessed in that pass.  The error
propagates out of the pass to the caller (which logs it and sleeps
until the next tick, so the loop itself survives and retries). -/
theorem C1_pass_aborts_at_failing_record
    (api : RiotApi) (now : Int) (l₁ : List SummonerFollowedData)
    (fs : SummonerFollowedData) (l₂ σ σ' : List SummonerFollowedData)
    (ns ns' : List Notification) (e : String)
    (h₁ : run_pass api now l₁ (l₁ ++ fs :: l₂) = .ok σ ns)
    (h₂ : process_followed_summoner api now σ fs = .err σ' ns' e) :
    check_and_update_db api now (l₁ ++ fs :: l₂) = .err σ' (ns ++ ns') e := by
  simp only [check_and_update_db]
  rw [if_pos]
  · rw [get_followed_summoners_map_ok]
    exact run_pass_ok_then_err api now l₁ (l₁ ++ fs :: l₂) σ σ' ns ns' fs l₂ e h₁ h₂
  · simp

/-- C1 witness: with an empty prefix and one later record, the pass
returns the first record's error and leaves the later record
unprocessed. -/
theorem C1_pass_aborts_witness :
    check_and_update_db
      ⟨fun p _ => if p = "pa" then .error "down" else .ok ["mX"], fun _ => .error "unused"⟩
      100
      [⟨"pa", "sa", "na", "ta", "euw", "ma", "9999999999", 1, "ga"⟩,
       ⟨"pb", "sb", "nb", "tb", "euw", "mb", "0", 2, "gb"⟩] =
      .err
        [⟨"pa", "sa", "na", "ta", "euw", "ma", "9999999999", 1, "ga"⟩,
         ⟨"pb", "sb", "nb", "tb", "euw", "mb", "0", 2, "gb"⟩] [] "down" :=
  C1_pass_aborts_at_failing_record
    ⟨fun p _ => if p = "pa" then .error "down" else .ok ["mX"], fun _ => .error "unused"⟩
    100 []
    ⟨"pa", "sa", "na", "ta", "euw", "ma", "9999999999", 1, "ga"⟩
    [⟨"pb", "sb", "nb", "tb", "euw", "mb", "0", 2, "gb"⟩]
    [⟨"pa", "sa", "na", "ta", "euw", "ma", "9999999999", 1, "ga"⟩,
     ⟨"pb", "sb", "nb", "tb", "euw", "mb", "0", 2, "gb"⟩]
    [⟨"pa", "sa", "na", "ta", "euw", "ma", "9999999999", 1, "ga"⟩,
     ⟨"pb", "sb", "nb", "tb", "euw", "mb", "0", 2, "gb"⟩]
    [] [] "down" rfl rfl

/-- C2 counterexample: atomicity on transient failure fails.  A record
stored as `"A"`, the source reporting `"B"`, and the match-detail fetch
failing: the tick's processing of the record returns the error, yet the
store already carries `last_match_id = "B"` — state was mutated by the
failing tick, and the changed record differs from the original. -/
theorem C2_counterexample :
    update_follower_if_new_match ⟨fun _ _ => .ok ["B"], fun _ => .error "boom"⟩
      [⟨"p", "s", "n", "t", "euw", "A", "9999999999", 3, "g"⟩]
      ⟨"p", "s", "n", "t", "euw", "A", "9999999999", 3, "g"⟩ =
      .err [⟨"p", "s", "n", "t", "euw", "B", "9999999999", 3, "g"⟩] [] "boom"
    ∧ (⟨"p", "s", "n", "t", "euw", "B", "9999999999", 3, "g"⟩ : SummonerFollowedData) ≠
        ⟨"p", "s", "n", "t", "euw", "A", "9999999999", 3, "g"⟩ :=
  ⟨rfl, by decide⟩

/-- C2 (amended): only a failure of the latest-match-id fetch leaves
the record's state unchanged; the `update_one` that overwrites
`last_match_id` precedes both the match-detail fetch and the Discord
send in the source, so a detail-fetch failure (and likewise a send
failure, whose result the source discards) occurs after the stored id
has already been overwritten with the new id. -/
theorem C2_update_precedes_detail_fetch
    (api : RiotApi) (store : List SummonerFollowedData) (fs : SummonerFollowedData) :
    (∀ e, api.matchIds fs.puuid 1 = .error e →
      update_follower_if_new_match api store fs = .err store [] e)
    ∧ (∀ B rest e, api.matchIds fs.puuid 1 = .ok (B :: rest) →
      fs.last_match_id ≠ B → api.matchInfo B = .error e →
      update_follower_if_new_match api store fs =
        .err (update_one_last_match_id store fs.puuid fs.guild_id B) [] e) := by
  constructor
  · intro e h
    simp [update_follower_if_new_match, get_latest_match_id, h]
  · intro B rest e hids hnew hinfo
    simp only [update_follower_if_new_match, get_latest_match_id, hids]
    rw [if_pos hnew]
    simp [send_match_update_to_discord, hinfo]

/-- C2 witness: one concrete id-fetch failure mutating nothing, and one
concrete detail-fetch failure arriving after the store update. -/
theorem C2_update_precedes_witness :
    update_follower_if_new_match ⟨fun _ _ => .error "down", fun _ => .error "x"⟩
      [⟨"p", "s", "n", "t", "euw", "A", "9999999999", 3, "g"⟩]
      ⟨"p", "s", "n", "t", "euw", "A", "9999999999", 3, "g"⟩ =
      .err [⟨"p", "s", "n", "t", "euw", "A", "9999999999", 3, "g"⟩] [] "down"
    ∧ update_follower_if_new_match ⟨fun _ _ => .ok ["B"], fun _ => .error "boom"⟩
      [⟨"p", "s", "n", "t", "euw", "A", "9999999999", 3, "g"⟩]
      ⟨"p", "s", "n", "t", "euw", "A", "9999999999", 3, "g"⟩ =
      .err [⟨"p", "s", "n", "t", "euw", "B", "9999999999", 3, "g"⟩] [] "boom" :=
  ⟨(C2_update_precedes_detail_fetch ⟨fun _ _ => .error "down", fun _ => .error "x"⟩
      [⟨"p", "s", "n", "t", "euw", "A", "9999999999", 3, "g"⟩]
      ⟨"p", "s", "n", "t", "euw", "A", "9999999999", 3, "g"⟩).1 "down" rfl,
   (C2_update_precedes_detail_fetch ⟨fun _ _ => .ok ["B"], fun _ => .error "boom"⟩
      [⟨"p", "s", "n", "t", "euw", "A", "9999999999", 3, "g"⟩]
      ⟨"p", "s", "n", "t", "euw", "A", "9999999999", 3, "g"⟩).2 "B" [] "boom" rfl
      (by decide) rfl⟩

/-- C4: uniqueness per (player, scope) is violated by the code.  Player
`"P"` is first followed from guild `"B"`.  A follow request for `"P"`
from guild `"A"` then inserts a record for (P, A); re-following `"P"`
from guild `"A"` again should update that record's `time_end_follow` in
place, but `check_and_add_in_db`'s `find_one` filters by `puuid` alone
and returns guild `"B"`'s record (the first stored), whose guild
mismatch sends the code down the insert branch — leaving TWO records
for the pair (P, A). -/
theorem C4_duplicate_follow_same_scope :
    ((check_and_add_in_db
        (check_and_add_in_db
          [⟨"P", "sP", "nP", "tP", "euw", "m0", "500", 7, "B"⟩]
          ⟨"P", "sP", "nP", "tP", "euw", "m0", "600", 9, "A"⟩)
        ⟨"P", "sP", "nP", "tP", "euw", "m0", "600", 9, "A"⟩).filter
      (fun r => r.puuid == "P" && r.guild_id == "A")).length = 2 :=
  rfl

end StatSummoner
